import Mathlib

/-
Verification of the LG-Urban assistant-chat backend against its
natural-language specification.

The development shallowly embeds the relevant source functions:

  * src/backend/graph/state.py      — conversation state and token reducer
  * src/backend/graph/graph.py      — agent node and summarize node
  * src/backend/artifacts/storage.py — blobstore operations
  * src/backend/artifacts/ingest.py — artifact ingestion
  * src/backend/artifacts/api.py    — download endpoint
  * src/backend/app/api.py          — message-posting / SSE handler

External effects (model calls, the database, the filesystem) are made
explicit: model calls are function parameters, the database is a list of
rows, the blobstore is the list of fingerprints present on disk.
Machine integers are Nat/Int; the float literal 0.9 of graph.py is
embedded as the rational 9/10.
-/

namespace LG

/- ===== Conversation state (src/backend/graph/state.py) ===== -/

/-- A message of the durable conversation log, with its stable id
(LangChain messages carry `id` and `content`; only these two fields are
relevant to the embedded code). -/
structure ChatMsg where
  id : String
  content : String
deriving DecidableEq

/-- state.py 8-22: reducer for the `token_count` channel.  `None` arguments
default to 0; a `token_used` of -1 resets the count to 0; otherwise the
update is added to the running count. -/
def update_token_count (token_count : Option Int) (token_used : Option Int) : Int :=
  let tc := token_count.getD 0
  let tu := token_used.getD 0
  if tu = -1 then 0 else tc + tu

/-- state.py 25-27: `MyState` — message log, running summary, running
input-token count. -/
structure MyState where
  messages : List ChatMsg
  summary : String
  token_count : Int
deriving DecidableEq

/-- An element of a `messages` channel update: either a message to append or
a `RemoveMessage(id=...)` entry. -/
inductive StateMsgUpdate where
  | append (m : ChatMsg)
  | removeMessage (id : String)
deriving DecidableEq

/-- Modelled from the spec: the checkpointer's `messages` reducer is provided
by the agent framework and is not under src/.  Spec §4.6: "`messages`: append
by default; a special \"remove\" element deletes by id (used by the summarizer
to prune)." -/
def add_messages (log : List ChatMsg) (updates : List StateMsgUpdate) : List ChatMsg :=
  updates.foldl
    (fun acc u =>
      match u with
      | .append m => acc ++ [m]
      | .removeMessage i => acc.filter (fun x => decide (x.id ≠ i)))
    log

/- ===== Agent runtime (src/backend/graph/graph.py) ===== -/

/-- graph.py 161: `context_window if context_window is not None else
CONTEXT_WINDOW`.  The process default (config.py 11) is passed explicitly
since it is read from the environment. -/
def effective_context_window (CONTEXT_WINDOW : Nat) (context_window : Option Nat) : Nat :=
  match context_window with
  | some w => w
  | none => CONTEXT_WINDOW

/-- The `Command` returned by the summarize node (graph.py 142-149):
the new summary, the ids of the `RemoveMessage` entries, and the
`token_count` update (always -1). -/
structure SummarizeCommand where
  summary : String
  delete_messages : List String
  token_count : Int
  goto : String
deriving DecidableEq

/-- graph.py 124-131: the summarization prompt, extending an existing
summary when one is present (non-empty string is truthy). -/
def summary_prompt (summary : String) : String :=
  if summary ≠ "" then
    "This is summary of the conversation to date: " ++ summary ++
      "\n\nExtend the summary by taking into account the new messages above:"
  else
    "Create a summary of the conversation above:"

/-- graph.py 114-149: the summarize node.  `agent_summarizer` is the external
summarizer model, mapped from its input message list to the content of the
last message of its response.  The node appends the summarization prompt to
the history, invokes the summarizer, and returns a command that stores the
response as `summary`, removes all but the 4 most recent messages
(`state["messages"][:-4]`), and resets the token count with the -1 sentinel. -/
def summarize_conversation (agent_summarizer : List ChatMsg → String)
    (state : MyState) : SummarizeCommand :=
  let summary := state.summary
  let messages := state.messages ++ [ChatMsg.mk "" (summary_prompt summary)]
  let response := agent_summarizer messages
  { summary := response
  , delete_messages := (state.messages.take (state.messages.length - 4)).map ChatMsg.id
  , token_count := -1
  , goto := "agent" }

/-- Modelled from the spec: the checkpointer applies a node's update between
steps (§4.6, §9 "tagged update record applied by the checkpointer between
steps"); the checkpointer itself is framework code not under src/.  `summary`
has no reducer (replace); `messages` and `token_count` go through their
reducers. -/
def apply_summarize_command (state : MyState) (cmd : SummarizeCommand) : MyState :=
  { messages := add_messages state.messages (cmd.delete_messages.map StateMsgUpdate.removeMessage)
  , summary := cmd.summary
  , token_count := update_token_count (some state.token_count) (some cmd.token_count) }

/-- Where the agent node transitions: `Command[Literal["summarize_conversation",
"__end__"]]` (graph.py 152-153). -/
inductive AgentGoto where
  | summarizeConversation
  | endRun
deriving DecidableEq

/-- The `Command` returned by the agent node, together with the number of
model invocations the node performed (0 on the summarize hop, 1 when the
agent was invoked). -/
structure AgentNodeResult where
  goto : AgentGoto
  new_messages : List ChatMsg
  token_update : Option Int
  model_invocations : Nat
deriving DecidableEq

/-- graph.py 152-193: the agent node.  Reads `token_count`, compares it with
`effective_context_window * 0.9` and routes to the summarize node when over
threshold without invoking the model.  Otherwise it prefixes a summary system
turn when a summary exists, invokes the agent (`agent` returns the last
message of the result together with the `input_tokens` field of its usage
metadata, `none` when the metadata is absent), and emits the last message and
a `token_count` update equal to `input_tokens` (0 when metadata is absent).
The model invocation itself (graph.py 181-184) is factored out as
`agent_invoke` below. -/
def agent_invoke (agent : List ChatMsg → ChatMsg × Option Nat)
    (messages : List ChatMsg) : ChatMsg × Int :=
  let result := agent messages
  let last_msg := result.1
  let input_tokens : Int :=
    match result.2 with
    | some n => (n : Int)
    | none => 0
  (last_msg, input_tokens)

def agent_node (CONTEXT_WINDOW : Nat) (context_window : Option Nat)
    (agent : List ChatMsg → ChatMsg × Option Nat)
    (state : MyState) : AgentNodeResult :=
  let current_tokens := state.token_count
  let ecw := effective_context_window CONTEXT_WINDOW context_window
  let threshold : ℚ := (ecw : ℚ) * (9 / 10)
  if (current_tokens : ℚ) ≥ threshold then
    { goto := .summarizeConversation
    , new_messages := []
    , token_update := none
    , model_invocations := 0 }
  else
    let messages :=
      if state.summary ≠ "" then
        ChatMsg.mk "" ("Summary of conversation earlier: " ++ state.summary) :: state.messages
      else state.messages
    let r := agent_invoke agent messages
    { goto := .endRun
    , new_messages := [r.1]
    , token_update := some r.2
    , model_invocations := 1 }

/-- Modelled from the spec (§4.6, as for `apply_summarize_command`): the
checkpointer applies the agent node's update — append the new messages,
leave the summary, run the token reducer on the update when one is present. -/
def apply_agent_command (state : MyState) (r : AgentNodeResult) : MyState :=
  { messages := add_messages state.messages (r.new_messages.map StateMsgUpdate.append)
  , summary := state.summary
  , token_count :=
      match r.token_update with
      | some t => update_token_count (some state.token_count) (some t)
      | none => state.token_count }

/- ===== Helper lemmas ===== -/

/-- Applying a list of remove entries through the messages reducer filters the
log by the removed ids. -/
lemma add_messages_removes (ids : List String) : ∀ (log : List ChatMsg),
    add_messages log (ids.map StateMsgUpdate.removeMessage)
      = log.filter (fun m => decide (m.id ∉ ids)) := by
  induction ids with
  | nil =>
      intro log
      simp [add_messages]
  | cons i ids ih =>
      intro log
      have h1 : add_messages log ((i :: ids).map StateMsgUpdate.removeMessage)
          = add_messages (log.filter (fun x => decide (x.id ≠ i)))
              (ids.map StateMsgUpdate.removeMessage) := rfl
      rw [h1, ih, List.filter_filter]
      apply List.filter_congr
      intro m _
      by_cases hm1 : m.id = i <;> by_cases hm2 : m.id ∈ ids <;>
        simp [hm1, hm2, List.mem_cons]

/-- Filtering a concatenation by "my key is not a key of the left part" keeps
exactly the right part, when all keys are distinct. -/
lemma filter_not_mem_append {α β : Type} [DecidableEq β] (f : α → β) (l₁ l₂ : List α)
    (h : ((l₁ ++ l₂).map f).Nodup) :
    (l₁ ++ l₂).filter (fun a => decide (f a ∉ l₁.map f)) = l₂ := by
  rw [List.map_append] at h
  rcases List.nodup_append.mp h with ⟨-, -, hdisj⟩
  rw [List.filter_append]
  have h1 : l₁.filter (fun a => decide (f a ∉ l₁.map f)) = [] := by
    rw [List.filter_eq_nil_iff]
    intro a ha
    simp only [decide_eq_true_eq, not_not]
    exact List.mem_map_of_mem f ha
  have h2 : l₂.filter (fun a => decide (f a ∉ l₁.map f)) = l₂ := by
    rw [List.filter_eq_self]
    intro a ha
    simp only [decide_eq_true_eq]
    intro hmem
    exact hdisj hmem (List.mem_map_of_mem f ha)
  rw [h1, h2, List.nil_append]

/-- Filtering a list by "my key is not among the keys of the first `k`
elements" drops exactly those first `k` elements, when all keys are
distinct. -/
lemma filter_not_mem_take_map {α β : Type} [DecidableEq β] (f : α → β) (k : Nat)
    (l : List α) (h : (l.map f).Nodup) :
    l.filter (fun a => decide (f a ∉ (l.take k).map f)) = l.drop k := by
  have hmain := filter_not_mem_append f (l.take k) (l.drop k)
    (by rw [List.take_append_drop]; exact h)
  rw [List.take_append_drop] at hmain
  exact hmain

/-- The token produced by one model invocation is never negative (it is either
the reported `input_tokens`, a natural number, or the fallback 0). -/
lemma agent_invoke_nonneg (agent : List ChatMsg → ChatMsg × Option Nat)
    (messages : List ChatMsg) : 0 ≤ (agent_invoke agent messages).2 := by
  unfold agent_invoke
  cases h : (agent messages).2 <;> simp [h]

/-- Applying an agent-node command whose token update is a nonnegative `t`
adds `t` to the running count. -/
lemma apply_agent_command_token (st : MyState) (r : AgentNodeResult) (t : Int)
    (ht : r.token_update = some t) (h0 : 0 ≤ t) :
    (apply_agent_command st r).token_count = st.token_count + t := by
  simp only [apply_agent_command, ht, update_token_count, Option.getD_some]
  have hne : ¬ (t = -1) := by omega
  simp [hne]

/- ===== C1 ===== -/

/-- Claim C1: for every agent step, if the conversation state's token count is
at least 0.9 times the effective context window (the per-thread override when
set, otherwise the process default), the agent node transitions to the
summarize node without invoking the model; below the threshold it invokes the
model (exactly once) and does not summarize. -/
theorem agent_node_threshold_routing (CW : Nat) (cw : Option Nat)
    (agent : List ChatMsg → ChatMsg × Option Nat) (st : MyState) :
    (((st.token_count : ℚ) ≥ ((effective_context_window CW cw : Nat) : ℚ) * (9 / 10)) →
        (agent_node CW cw agent st).goto = AgentGoto.summarizeConversation
        ∧ (agent_node CW cw agent st).model_invocations = 0)
    ∧ (((st.token_count : ℚ) < ((effective_context_window CW cw : Nat) : ℚ) * (9 / 10)) →
        (agent_node CW cw agent st).goto = AgentGoto.endRun
        ∧ (agent_node CW cw agent st).model_invocations = 1) := by
  constructor
  · intro h
    constructor <;> simp [agent_node, h]
  · intro h
    have h2 : ¬ ((st.token_count : ℚ) ≥ ((effective_context_window CW cw : Nat) : ℚ) * (9 / 10)) :=
      not_le.mpr h
    constructor <;> simp [agent_node, h2]

/-- Witness for C1: with the default 30000-token window, a state at 27000
tokens (exactly 0.9 of the window) hops to summarization without a model call,
and a state at 26999 tokens invokes the model. -/
theorem agent_node_threshold_routing_witness :
    ((((MyState.mk [] "" 27000).token_count : ℚ) ≥
        ((effective_context_window 30000 none : Nat) : ℚ) * (9 / 10))
      ∧ (agent_node 30000 none (fun _ => (ChatMsg.mk "a" "hi", some 7))
          (MyState.mk [] "" 27000)).goto = AgentGoto.summarizeConversation
      ∧ (agent_node 30000 none (fun _ => (ChatMsg.mk "a" "hi", some 7))
          (MyState.mk [] "" 27000)).model_invocations = 0)
    ∧ ((((MyState.mk [] "" 26999).token_count : ℚ) <
        ((effective_context_window 30000 none : Nat) : ℚ) * (9 / 10))
      ∧ (agent_node 30000 none (fun _ => (ChatMsg.mk "a" "hi", some 7))
          (MyState.mk [] "" 26999)).goto = AgentGoto.endRun
      ∧ (agent_node 30000 none (fun _ => (ChatMsg.mk "a" "hi", some 7))
          (MyState.mk [] "" 26999)).model_invocations = 1) := by
  have hge : (((MyState.mk [] "" 27000).token_count : ℚ) ≥
      ((effective_context_window 30000 none : Nat) : ℚ) * (9 / 10)) := by
    norm_num [effective_context_window]
  have hlt : (((MyState.mk [] "" 26999).token_count : ℚ) <
      ((effective_context_window 30000 none : Nat) : ℚ) * (9 / 10)) := by
    norm_num [effective_context_window]
  refine ⟨⟨hge, ?_⟩, ⟨hlt, ?_⟩⟩
  · exact (agent_node_threshold_routing 30000 none
      (fun _ => (ChatMsg.mk "a" "hi", some 7)) (MyState.mk [] "" 27000)).1 hge
  · exact (agent_node_threshold_routing 30000 none
      (fun _ => (ChatMsg.mk "a" "hi", some 7)) (MyState.mk [] "" 26999)).2 hlt

/- ===== C2 ===== -/

/-- Claim C2: after the checkpointer applies a completed summarize-node update
to a state whose log has at least 4 messages (with the distinct ids every
real log has): the token count is 0, the summary equals the summarizer
model's output on the history extended with the summarization prompt
(replacing any previous summary), and the message log is exactly the last 4
pre-summarization messages, in order. -/
theorem summarize_checkpoint_resets_and_prunes
    (agent_summarizer : List ChatMsg → String) (st : MyState)
    (h4 : 4 ≤ st.messages.length)
    (hids : (st.messages.map ChatMsg.id).Nodup) :
    (apply_summarize_command st (summarize_conversation agent_summarizer st)).token_count = 0
    ∧ (apply_summarize_command st (summarize_conversation agent_summarizer st)).summary
        = agent_summarizer (st.messages ++ [ChatMsg.mk "" (summary_prompt st.summary)])
    ∧ (apply_summarize_command st (summarize_conversation agent_summarizer st)).messages
        = st.messages.drop (st.messages.length - 4)
    ∧ (apply_summarize_command st (summarize_conversation agent_summarizer st)).messages.length = 4 := by
  have hmsg : (apply_summarize_command st (summarize_conversation agent_summarizer st)).messages
      = st.messages.drop (st.messages.length - 4) := by
    show add_messages st.messages
        (((st.messages.take (st.messages.length - 4)).map ChatMsg.id).map StateMsgUpdate.removeMessage)
      = st.messages.drop (st.messages.length - 4)
    rw [add_messages_removes]
    exact filter_not_mem_take_map ChatMsg.id (st.messages.length - 4) st.messages hids
  refine ⟨?_, rfl, hmsg, ?_⟩
  · simp [apply_summarize_command, summarize_conversation, update_token_count]
  · rw [hmsg, List.length_drop]
    omega

/-- Witness for C2: a 5-message log with distinct ids and a previous summary;
after summarization the count is 0, the summary is the summarizer's output,
and messages m2..m5 remain. -/
theorem summarize_checkpoint_resets_and_prunes_witness :
    (4 ≤ (MyState.mk [ChatMsg.mk "m1" "a", ChatMsg.mk "m2" "b", ChatMsg.mk "m3" "c",
        ChatMsg.mk "m4" "d", ChatMsg.mk "m5" "e"] "old" 27000).messages.length
    ∧ ((MyState.mk [ChatMsg.mk "m1" "a", ChatMsg.mk "m2" "b", ChatMsg.mk "m3" "c",
        ChatMsg.mk "m4" "d", ChatMsg.mk "m5" "e"] "old" 27000).messages.map ChatMsg.id).Nodup)
    ∧ ((apply_summarize_command
          (MyState.mk [ChatMsg.mk "m1" "a", ChatMsg.mk "m2" "b", ChatMsg.mk "m3" "c",
            ChatMsg.mk "m4" "d", ChatMsg.mk "m5" "e"] "old" 27000)
          (summarize_conversation (fun _ => "NEW")
            (MyState.mk [ChatMsg.mk "m1" "a", ChatMsg.mk "m2" "b", ChatMsg.mk "m3" "c",
              ChatMsg.mk "m4" "d", ChatMsg.mk "m5" "e"] "old" 27000))).token_count = 0
      ∧ (apply_summarize_command
          (MyState.mk [ChatMsg.mk "m1" "a", ChatMsg.mk "m2" "b", ChatMsg.mk "m3" "c",
            ChatMsg.mk "m4" "d", ChatMsg.mk "m5" "e"] "old" 27000)
          (summarize_conversation (fun _ => "NEW")
            (MyState.mk [ChatMsg.mk "m1" "a", ChatMsg.mk "m2" "b", ChatMsg.mk "m3" "c",
              ChatMsg.mk "m4" "d", ChatMsg.mk "m5" "e"] "old" 27000))).summary
        = (fun _ => "NEW")
            ((MyState.mk [ChatMsg.mk "m1" "a", ChatMsg.mk "m2" "b", ChatMsg.mk "m3" "c",
              ChatMsg.mk "m4" "d", ChatMsg.mk "m5" "e"] "old" 27000).messages
              ++ [ChatMsg.mk "" (summary_prompt
                    (MyState.mk [ChatMsg.mk "m1" "a", ChatMsg.mk "m2" "b", ChatMsg.mk "m3" "c",
                      ChatMsg.mk "m4" "d", ChatMsg.mk "m5" "e"] "old" 27000).summary)])
      ∧ (apply_summarize_command
          (MyState.mk [ChatMsg.mk "m1" "a", ChatMsg.mk "m2" "b", ChatMsg.mk "m3" "c",
            ChatMsg.mk "m4" "d", ChatMsg.mk "m5" "e"] "old" 27000)
          (summarize_conversation (fun _ => "NEW")
            (MyState.mk [ChatMsg.mk "m1" "a", ChatMsg.mk "m2" "b", ChatMsg.mk "m3" "c",
              ChatMsg.mk "m4" "d", ChatMsg.mk "m5" "e"] "old" 27000))).messages
        = (MyState.mk [ChatMsg.mk "m1" "a", ChatMsg.mk "m2" "b", ChatMsg.mk "m3" "c",
            ChatMsg.mk "m4" "d", ChatMsg.mk "m5" "e"] "old" 27000).messages.drop
            ((MyState.mk [ChatMsg.mk "m1" "a", ChatMsg.mk "m2" "b", ChatMsg.mk "m3" "c",
              ChatMsg.mk "m4" "d", ChatMsg.mk "m5" "e"] "old" 27000).messages.length - 4)
      ∧ (apply_summarize_command
          (MyState.mk [ChatMsg.mk "m1" "a", ChatMsg.mk "m2" "b", ChatMsg.mk "m3" "c",
            ChatMsg.mk "m4" "d", ChatMsg.mk "m5" "e"] "old" 27000)
          (summarize_conversation (fun _ => "NEW")
            (MyState.mk [ChatMsg.mk "m1" "a", ChatMsg.mk "m2" "b", ChatMsg.mk "m3" "c",
              ChatMsg.mk "m4" "d", ChatMsg.mk "m5" "e"] "old" 27000))).messages.length = 4) :=
  ⟨⟨by decide, by decide⟩,
    summarize_checkpoint_resets_and_prunes (fun _ => "NEW")
      (MyState.mk [ChatMsg.mk "m1" "a", ChatMsg.mk "m2" "b", ChatMsg.mk "m3" "c",
        ChatMsg.mk "m4" "d", ChatMsg.mk "m5" "e"] "old" 27000)
      (by decide) (by decide)⟩

/- ===== C3 ===== -/

/-- Counterexample to claim C3 as stated: a turn starting from a checkpointed
`token_count` of 5 whose model invocation reports `input_tokens = 7` leaves
the running count at 5 + 7 = 12 — not the last observed reading 7.  The
reducer `update_token_count` adds the node's update to the running value. -/
theorem token_count_is_sum_counterexample :
    (agent_node 30000 none (fun _ => (ChatMsg.mk "a1" "hi", some 7))
      (MyState.mk [ChatMsg.mk "u1" "q"] "" 5)).token_update = some 7
    ∧ (apply_agent_command (MyState.mk [ChatMsg.mk "u1" "q"] "" 5)
        (agent_node 30000 none (fun _ => (ChatMsg.mk "a1" "hi", some 7))
          (MyState.mk [ChatMsg.mk "u1" "q"] "" 5))).token_count = 12
    ∧ (12 : Int) ≠ 7 := by
  have hlt : ¬ (((MyState.mk [ChatMsg.mk "u1" "q"] "" 5).token_count : ℚ) ≥
      ((effective_context_window 30000 none : Nat) : ℚ) * (9 / 10)) := by
    norm_num [effective_context_window]
  refine ⟨?_, ?_, by norm_num⟩ <;>
    (simp only [agent_node]; rw [if_neg hlt])
  · rfl
  · rfl

/-- Claim C3 amended: after every agent-node step that invokes the model, the
checkpointed running `token_count` equals its previous value plus the
`input_tokens` field of the final usage metadata of that invocation (the
reducer accumulates; the running value equals the last observed reading only
when the previous value was 0, e.g. right after a summarization reset). -/
theorem agent_step_token_count_accumulates (CW : Nat) (cw : Option Nat)
    (agent : List ChatMsg → ChatMsg × Option Nat) (st : MyState)
    (hinv : (agent_node CW cw agent st).model_invocations = 1) :
    ∃ t : Int, (agent_node CW cw agent st).token_update = some t ∧ 0 ≤ t
      ∧ (apply_agent_command st (agent_node CW cw agent st)).token_count
          = st.token_count + t := by
  by_cases hc : ((st.token_count : ℚ) ≥ ((effective_context_window CW cw : Nat) : ℚ) * (9 / 10))
  · simp [agent_node, hc] at hinv
  · simp only [agent_node]
    rw [if_neg hc]
    refine ⟨_, rfl, agent_invoke_nonneg agent _, ?_⟩
    exact apply_agent_command_token st _ _ rfl (agent_invoke_nonneg agent _)

/-- Witness for C3's amended claim: from a checkpointed count of 5 and a
model reporting 7 input tokens, the step accumulates to 12 = 5 + 7. -/
theorem agent_step_token_count_accumulates_witness :
    ((agent_node 30000 none (fun _ => (ChatMsg.mk "a1" "hi", some 7))
        (MyState.mk [ChatMsg.mk "u1" "q"] "" 5)).model_invocations = 1)
    ∧ (∃ t : Int, (agent_node 30000 none (fun _ => (ChatMsg.mk "a1" "hi", some 7))
          (MyState.mk [ChatMsg.mk "u1" "q"] "" 5)).token_update = some t ∧ 0 ≤ t
        ∧ (apply_agent_command (MyState.mk [ChatMsg.mk "u1" "q"] "" 5)
            (agent_node 30000 none (fun _ => (ChatMsg.mk "a1" "hi", some 7))
              (MyState.mk [ChatMsg.mk "u1" "q"] "" 5))).token_count
            = (MyState.mk [ChatMsg.mk "u1" "q"] "" 5).token_count + t) := by
  have hinv : (agent_node 30000 none (fun _ => (ChatMsg.mk "a1" "hi", some 7))
      (MyState.mk [ChatMsg.mk "u1" "q"] "" 5)).model_invocations = 1 := by
    have hlt : ¬ (((MyState.mk [ChatMsg.mk "u1" "q"] "" 5).token_count : ℚ) ≥
        ((effective_context_window 30000 none : Nat) : ℚ) * (9 / 10)) := by
      norm_num [effective_context_window]
    simp only [agent_node]
    rw [if_neg hlt]
  exact ⟨hinv, agent_step_token_count_accumulates 30000 none
    (fun _ => (ChatMsg.mk "a1" "hi", some 7)) (MyState.mk [ChatMsg.mk "u1" "q"] "" 5) hinv⟩

/- ===== Streaming orchestrator (src/backend/app/api.py) ===== -/

/-- A row of the `messages` table, as built by the handler (api.py 521-527
and 699-719). -/
structure MessageRow where
  thread_id : String
  message_id : String
  role : String
  content : Option String
  tool_name : Option String
  tool_input : Option String
  tool_output : Option String
  meta : Option String
deriving DecidableEq

/-- Modelled from the spec: the relational datastore's unique constraint on
`(thread, message_id)` (§3: "caller-supplied idempotency key unique within
the thread"; the models module is not under src/).  Committing an insert
that duplicates the pair fails and leaves the table unchanged; otherwise the
row is appended. -/
def commit_message_insert (db : List MessageRow) (row : MessageRow) :
    Except Unit (List MessageRow) :=
  if db.any (fun r => r.thread_id == row.thread_id && r.message_id == row.message_id) then
    Except.error ()
  else
    Except.ok (db ++ [row])

/-- Outcome of the pre-stream part of `post_message_stream`. -/
inductive PostMessageResult where
  | badRequest
  | notFound
  | conflict
  | streamOpened
deriving DecidableEq

/-- api.py 497-533: the pre-stream part of `POST /threads/{id}/messages`.
Non-user role is rejected with 400; a missing thread with 404; then the user
message is inserted, and a failed commit is rolled back and answered with
409.  Returns the response outcome and the message table afterwards. -/
def post_message_stream (threads : List String) (db : List MessageRow)
    (thread_id message_id role content : String) :
    PostMessageResult × List MessageRow :=
  if role ≠ "user" then (.badRequest, db)
  else if ¬ threads.contains thread_id then (.notFound, db)
  else
    match commit_message_insert db
        (MessageRow.mk thread_id message_id "user" (some content) none none none none) with
    | .error _ => (.conflict, db)
    | .ok db2 => (.streamOpened, db2)

/-- The SSE frames of api.py (spec §6). -/
inductive SSEFrame where
  | contextUpdate (tokens_used : Int) (max_tokens : Nat)
  | token (content : String)
  | toolStart (name : String) (input : String)
  | toolEnd (name : String) (output : String) (artifacts : Option String)
  | summarizing (status : String)
  | titleUpdated (title : String)
  | done (message_id : Option String)
  | error (e : String)
deriving DecidableEq

/-- Outcome of a Python expression: a value or a raised exception. -/
inductive PyOutcome (α : Type) where
  | ok (a : α)
  | exc (message : String)
deriving DecidableEq

/-- api.py 563: `state_snapshot = await graph.aget_state(config)`.  `config`
is a local variable of `event_stream`, first assigned at api.py 582 — after
this line — so Python raises UnboundLocalError here regardless of what the
checkpointer holds.  The argument is the token count the checkpointer would
have reported. -/
def aget_state_token_count (checkpointed_token_count : Int) : PyOutcome Int :=
  PyOutcome.exc "UnboundLocalError: local variable referenced before assignment"

/-- api.py 560-570: the section that, before acquiring the thread lock, tries
to read the checkpointed state and emit the initial `context_update` frame.
The read raises (see `aget_state_token_count`), the `except Exception` at
api.py 569 logs a warning, and no frame is emitted. -/
def pre_stream_frames (checkpointed_token_count : Int) (max_tokens : Nat) : List SSEFrame :=
  match aget_state_token_count checkpointed_token_count with
  | .ok tc => [SSEFrame.contextUpdate tc max_tokens]
  | .exc _ => []

/-- api.py 566 and 612: `cfg.context_window if cfg and cfg.context_window
else DEFAULT_CONTEXT_WINDOW` — a configured window of 0 is falsy and falls
back to the default. -/
def api_max_tokens (CONTEXT_WINDOW : Nat) (cfg_context_window : Option Nat) : Nat :=
  match cfg_context_window with
  | some w => if w ≠ 0 then w else CONTEXT_WINDOW
  | none => CONTEXT_WINDOW

/-- An event observed from `graph.astream_events` (api.py 586-592): its kind,
checkpoint namespace and payload. -/
inductive RunEvent where
  | onChatModelStream (checkpoint_ns : String) (chunk : Option String)
  | onChatModelStart (checkpoint_ns : String)
  | onChatModelEnd (checkpoint_ns : String) (output : Option String)
  | onToolStart (name : String) (input : String)
  | onToolEnd (name : String) (input : String) (output : String)
      (artifacts : Option String) (tool_call_id : Option String)
deriving DecidableEq

/-- A tool call captured for persistence (api.py 663-668). -/
structure ToolCallRec where
  name : String
  input : String
  output : String
  tool_call_id : Option String
deriving DecidableEq

/-- The loop state of the event loop at api.py 586-689: frames emitted so
far, tool calls captured, and the latest assistant content observed. -/
structure DriveAcc where
  frames : List SSEFrame
  tool_calls : List ToolCallRec
  assistant_content : Option String
deriving DecidableEq

/-- Whether a checkpoint namespace belongs to the summarizer node
(api.py 596, 604, 608, 684). -/
def summarizer_ns (ns : String) : Bool :=
  ns.startsWith "summarize_conversation:"

/-- api.py 586-689: handling of one streamed event. -/
def process_event (max_tokens : Nat) (acc : DriveAcc) (e : RunEvent) : DriveAcc :=
  match e with
  | .onChatModelStream ns chunk =>
      if summarizer_ns ns then acc
      else
        match chunk with
        | some c =>
            if c ≠ "" then { acc with frames := acc.frames ++ [SSEFrame.token c] } else acc
        | none => acc
  | .onChatModelStart ns =>
      if summarizer_ns ns then
        { acc with frames := acc.frames ++ [SSEFrame.summarizing "start"] }
      else acc
  | .onChatModelEnd ns output =>
      if summarizer_ns ns then
        { acc with frames := acc.frames ++
            [SSEFrame.summarizing "done", SSEFrame.contextUpdate 0 max_tokens] }
      else
        match output with
        | some c => { acc with assistant_content := some c }
        | none => acc
  | .onToolStart name input =>
      { acc with frames := acc.frames ++ [SSEFrame.toolStart name input] }
  | .onToolEnd name input output artifacts tool_call_id =>
      { acc with
          tool_calls := acc.tool_calls ++ [ToolCallRec.mk name input output tool_call_id]
        , frames := acc.frames ++ [SSEFrame.toolEnd name output artifacts] }

/-- api.py 693-723: the single post-stream transaction.  One tool row per
captured tool call (`message_id = "tool:{user_msg_id}:{idx}"`, tool-call id
in the metadata), then one assistant row (`"assistant:{user_msg_id}"`) when
assistant content was captured and is non-empty (truthy).  Returns the rows
written and `a_msg_id` (the assistant row's database id, passed in as
`assistant_row_id` since the store generates it). -/
def persist_turn (thread_id user_message_id assistant_row_id : String)
    (tool_calls : List ToolCallRec) (assistant_content : Option String) :
    List MessageRow × Option String :=
  let tool_rows := tool_calls.enum.map (fun p =>
    MessageRow.mk thread_id ("tool:" ++ user_message_id ++ ":" ++ toString p.1) "tool"
      none (some p.2.name) (some p.2.input) (some p.2.output) p.2.tool_call_id)
  match assistant_content with
  | some c =>
      if c ≠ "" then
        (tool_rows ++ [MessageRow.mk thread_id ("assistant:" ++ user_message_id) "assistant"
            (some c) none none none none], some assistant_row_id)
      else (tool_rows, none)
  | none => (tool_rows, none)

/-- api.py 535-771: the SSE body.  `events` are the events the runtime
yielded; `run_exception` is `some e` when driving the runtime raised after
those events (api.py 762-771: the exception is caught, an `error` frame is
emitted, nothing is persisted, and nothing propagates out of the body —
the function is total).  `title_result` is the auto-title outcome (`none`
covers both "title not attempted" and the swallowed failure of api.py
757-758).  Returns the emitted frames and the rows persisted by this run. -/
def event_stream (CONTEXT_WINDOW : Nat) (cfg_context_window : Option Nat)
    (checkpointed_token_count : Int)
    (thread_id user_message_id assistant_row_id : String)
    (events : List RunEvent) (run_exception : Option String)
    (title_result : Option String) : List SSEFrame × List MessageRow :=
  let max_tokens := api_max_tokens CONTEXT_WINDOW cfg_context_window
  let pre := pre_stream_frames checkpointed_token_count max_tokens
  let acc := events.foldl (process_event max_tokens) (DriveAcc.mk [] [] none)
  match run_exception with
  | some e => (pre ++ acc.frames ++ [SSEFrame.error e], [])
  | none =>
      let pr := persist_turn thread_id user_message_id assistant_row_id
        acc.tool_calls acc.assistant_content
      let title_frames :=
        match pr.2, title_result with
        | some _, some t => [SSEFrame.titleUpdated t]
        | _, _ => []
      (pre ++ acc.frames ++ title_frames ++ [SSEFrame.done pr.2], pr.1)

/- ===== C4 ===== -/

/-- Claim C4 is a code bug: the initial `context_update` frame is never
emitted.  api.py 563 reads `graph.aget_state(config)` where `config` is a
local first assigned at api.py 582, so the read raises UnboundLocalError;
the `except Exception` at api.py 569 swallows it and the pre-stream section
yields no frame — whatever the checkpointed token count and effective window
are.  (The section also sits before the `async with lock` at api.py 573-574,
so even as written the frame would not be emitted under the thread lock.) -/
theorem pre_stream_context_update_never_emitted :
    ∀ (checkpointed_token_count : Int) (max_tokens : Nat),
      pre_stream_frames checkpointed_token_count max_tokens = [] := by
  intro tc mt
  rfl

/- ===== C5 ===== -/

/-- Claim C5: a `POST /threads/{id}/messages` whose `(thread, message_id)`
pair already exists responds 409 conflict, inserts nothing, and leaves the
stored messages unchanged. -/
theorem duplicate_message_id_conflict (threads : List String) (db : List MessageRow)
    (thread_id message_id content : String)
    (hthread : threads.contains thread_id = true)
    (hdup : ∃ r ∈ db, r.thread_id = thread_id ∧ r.message_id = message_id) :
    post_message_stream threads db thread_id message_id "user" content
      = (PostMessageResult.conflict, db) := by
  have hcommit : commit_message_insert db
      (MessageRow.mk thread_id message_id "user" (some content) none none none none)
      = Except.error () := by
    unfold commit_message_insert
    rw [if_pos]
    rcases hdup with ⟨r, hr, h1, h2⟩
    rw [List.any_eq_true]
    exact ⟨r, hr, by simp [h1, h2]⟩
  unfold post_message_stream
  rw [if_neg (by simp), if_neg (not_not_intro hthread), hcommit]

/-- Witness for C5: thread t1 already stores (t1, m1); the duplicate POST
gets conflict and the table is unchanged. -/
theorem duplicate_message_id_conflict_witness :
    ((["t1"] : List String).contains "t1" = true
    ∧ ∃ r ∈ [MessageRow.mk "t1" "m1" "user" (some "hi") none none none none],
        r.thread_id = "t1" ∧ r.message_id = "m1")
    ∧ post_message_stream ["t1"]
        [MessageRow.mk "t1" "m1" "user" (some "hi") none none none none]
        "t1" "m1" "user" "again"
      = (PostMessageResult.conflict,
          [MessageRow.mk "t1" "m1" "user" (some "hi") none none none none]) :=
  ⟨⟨by decide, by decide⟩,
    duplicate_message_id_conflict ["t1"]
      [MessageRow.mk "t1" "m1" "user" (some "hi") none none none none]
      "t1" "m1" "again" (by decide) (by decide)⟩

/- ===== C6 ===== -/

/-- Claim C6: when driving the runtime raises after any prefix of events, the
SSE body persists no rows at all (neither the assistant message nor the
captured tool messages), and ends with an `error` frame carrying the message
text; the embedding of the body is a total function, reflecting that the
handler catches the exception instead of propagating it out of the SSE
body. -/
theorem model_failure_emits_error_and_persists_nothing
    (CW : Nat) (cw : Option Nat) (checkpointed_token_count : Int)
    (thread_id user_message_id assistant_row_id : String)
    (events : List RunEvent) (e : String) (title_result : Option String) :
    (event_stream CW cw checkpointed_token_count thread_id user_message_id
        assistant_row_id events (some e) title_result).2 = []
    ∧ (event_stream CW cw checkpointed_token_count thread_id user_message_id
        assistant_row_id events (some e) title_result).1.getLast?
      = some (SSEFrame.error e) := by
  constructor
  · rfl
  · simp [event_stream, List.getLast?_concat]

/- ===== Artifact storage and ingestion (src/backend/artifacts/storage.py,
       src/backend/artifacts/ingest.py) ===== -/

/-- storage.py 35-38: the per-file size cap in bytes,
`MAX_ARTIFACT_SIZE_MB * 1024 * 1024` (the MB value is read from the
environment and passed explicitly here). -/
def get_max_artifact_size (MAX_ARTIFACT_SIZE_MB : Nat) : Nat :=
  MAX_ARTIFACT_SIZE_MB * 1024 * 1024

/-- A file handed to ingestion, with the values `file_sha256` and
`sniff_mime` would compute for it: its name, byte size, the lowercase-hex
SHA-256 of its bytes, and its sniffed MIME type.  Files with identical bytes
have identical `sha` (file_sha256 is a function of the bytes). -/
structure FileInfo where
  name : String
  size : Nat
  sha : String
  mime : String
deriving DecidableEq

/-- A row of the `artifacts` table (storage.py 166-177).  `uuid.uuid4()` is
modelled as a fresh identifier drawn from a counter. -/
structure ArtifactRow where
  id : String
  thread_id : String
  sha256 : String
  filename : String
  mime : String
  size : Nat
  session_id : Option String
  run_id : Option String
  tool_call_id : Option String
deriving DecidableEq

/-- storage.py 93-121: copy a file into the content-addressed blobstore.
The blobstore is the list of fingerprints whose blob file exists on disk
(the path is a function of the fingerprint, storage.py 51-62); if the
destination already exists the copy is skipped, otherwise the file is
written. -/
def copy_to_blobstore (blobs : List String) (sha256 : String) : List String :=
  if sha256 ∈ blobs then blobs else blobs ++ [sha256]

/-- The identifiers an ingest call carries (ingest.py 48-56). -/
structure IngestEnv where
  thread_id : String
  session_id : String
  run_id : Option String
  tool_call_id : Option String
deriving DecidableEq

/-- The world an ingest call acts on: blob files on disk (by fingerprint),
artifact rows, the fresh-id counter, and the staging files deleted so far. -/
structure IngestState where
  blobs : List String
  artifacts : List ArtifactRow
  next_id : Nat
  deleted : List String
deriving DecidableEq

/-- The descriptor ingest returns per file (ingest.py 92-100 and 123-130). -/
structure Descriptor where
  id : Option String
  name : String
  mime : String
  size : Nat
  sha256 : Option String
  error : Option String
deriving DecidableEq

/-- storage.py 149-180: insert a new artifact row (always a new row, with a
fresh id). -/
def create_artifact (st : IngestState) (env : IngestEnv) (f : FileInfo) :
    ArtifactRow × IngestState :=
  let row := ArtifactRow.mk (toString st.next_id) env.thread_id f.sha f.name f.mime f.size
    (some env.session_id) env.run_id env.tool_call_id
  (row, { st with artifacts := st.artifacts ++ [row], next_id := st.next_id + 1 })

/-- ingest.py 150-191: copy the file to the blobstore (idempotent), then
always create a new artifact row even when the blob already exists
(per-reference rows). -/
def upsert_artifact (st : IngestState) (env : IngestEnv) (f : FileInfo) :
    ArtifactRow × IngestState :=
  let st1 := { st with blobs := copy_to_blobstore st.blobs f.sha }
  create_artifact st1 env f

/-- ingest.py 86-142: handle one staged file.  Over the size cap: emit an
error descriptor with null id and sha256 and touch nothing.  Otherwise:
fingerprint, upsert (blob copy + new row), delete the staging file, and emit
the success descriptor. -/
def ingest_one (max_bytes : Nat) (env : IngestEnv) (st : IngestState) (f : FileInfo) :
    IngestState × Descriptor :=
  if f.size > max_bytes then
    (st, Descriptor.mk none f.name f.mime f.size none
      (some ("File too large (> " ++ toString max_bytes ++ " bytes).")))
  else
    let r := upsert_artifact st env f
    let st2 := { r.2 with deleted := r.2.deleted ++ [f.name] }
    (st2, Descriptor.mk (some r.1.id) r.1.filename r.1.mime r.1.size (some r.1.sha256) none)

/-- ingest.py 48-147: one ingest call over a list of staged files, in order.
(The commit at ingest.py 145 succeeds in this model; on failure blobs stay in
place by design.) -/
def ingest_files (max_bytes : Nat) (env : IngestEnv) (st : IngestState) :
    List FileInfo → IngestState × List Descriptor
  | [] => (st, [])
  | f :: fs =>
      let r := ingest_one max_bytes env st f
      let rest := ingest_files max_bytes env r.1 fs
      (rest.1, r.2 :: rest.2)

/-- A sequence of ingest calls, each with its own identifiers and staged
files, threaded through the shared blobstore and artifacts table. -/
def run_ingest_calls (max_bytes : Nat) (st : IngestState) :
    List (IngestEnv × List FileInfo) → IngestState
  | [] => st
  | c :: cs => run_ingest_calls max_bytes (ingest_files max_bytes c.1 st c.2).1 cs

/- ===== Blobstore / ingestion lemmas ===== -/

lemma mem_copy_to_blobstore_self (blobs : List String) (sha : String) :
    sha ∈ copy_to_blobstore blobs sha := by
  unfold copy_to_blobstore
  split
  · assumption
  · exact List.mem_append_right _ (by simp)

lemma mem_copy_to_blobstore_of_mem (blobs : List String) (sha x : String)
    (h : x ∈ blobs) : x ∈ copy_to_blobstore blobs sha := by
  unfold copy_to_blobstore
  split
  · exact h
  · exact List.mem_append_left _ h

lemma copy_to_blobstore_nodup (blobs : List String) (sha : String)
    (h : blobs.Nodup) : (copy_to_blobstore blobs sha).Nodup := by
  unfold copy_to_blobstore
  split
  · exact h
  · rename_i hns
    rw [List.nodup_append]
    refine ⟨h, List.nodup_singleton _, ?_⟩
    intro a ha hb
    rw [List.mem_singleton] at hb
    subst hb
    exact hns ha

/-- The state after one ingested file: rejected files leave the state alone,
accepted files update blobs, rows, counter and deletions as the code does. -/
lemma ingest_one_accepted (mb : Nat) (env : IngestEnv) (st : IngestState)
    (f : FileInfo) (h : ¬ (f.size > mb)) :
    (ingest_one mb env st f).1 =
      IngestState.mk (copy_to_blobstore st.blobs f.sha)
        (st.artifacts ++ [ArtifactRow.mk (toString st.next_id) env.thread_id f.sha f.name
          f.mime f.size (some env.session_id) env.run_id env.tool_call_id])
        (st.next_id + 1) (st.deleted ++ [f.name]) := by
  simp [ingest_one, h, upsert_artifact, create_artifact]

lemma ingest_one_rejected (mb : Nat) (env : IngestEnv) (st : IngestState)
    (f : FileInfo) (h : f.size > mb) :
    (ingest_one mb env st f).1 = st := by
  simp [ingest_one, h]

lemma ingest_files_blobs_nodup (mb : Nat) (env : IngestEnv) :
    ∀ (fs : List FileInfo) (st : IngestState),
      st.blobs.Nodup → ((ingest_files mb env st fs).1).blobs.Nodup := by
  intro fs
  induction fs with
  | nil => intro st h; exact h
  | cons f fs ih =>
      intro st h
      show ((ingest_files mb env (ingest_one mb env st f).1 fs).1).blobs.Nodup
      apply ih
      by_cases hs : f.size > mb
      · rw [ingest_one_rejected mb env st f hs]; exact h
      · rw [ingest_one_accepted mb env st f hs]
        exact copy_to_blobstore_nodup _ _ h

lemma ingest_files_blobs_mem (mb : Nat) (env : IngestEnv) :
    ∀ (fs : List FileInfo) (st : IngestState) (x : String),
      x ∈ st.blobs → x ∈ ((ingest_files mb env st fs).1).blobs := by
  intro fs
  induction fs with
  | nil => intro st x h; exact h
  | cons f fs ih =>
      intro st x h
      show x ∈ ((ingest_files mb env (ingest_one mb env st f).1 fs).1).blobs
      apply ih
      by_cases hs : f.size > mb
      · rw [ingest_one_rejected mb env st f hs]; exact h
      · rw [ingest_one_accepted mb env st f hs]
        exact mem_copy_to_blobstore_of_mem _ _ _ h

lemma ingest_files_blobs_gains (mb : Nat) (env : IngestEnv) (fp : String) :
    ∀ (fs : List FileInfo) (st : IngestState),
      (∃ f ∈ fs, f.sha = fp ∧ ¬ (f.size > mb)) →
      fp ∈ ((ingest_files mb env st fs).1).blobs := by
  intro fs
  induction fs with
  | nil => intro st h; rcases h with ⟨f, hf, -⟩; cases hf
  | cons f fs ih =>
      intro st h
      show fp ∈ ((ingest_files mb env (ingest_one mb env st f).1 fs).1).blobs
      rcases h with ⟨g, hg, hsha, hsize⟩
      rcases List.mem_cons.mp hg with hgf | hgr
      · subst hgf
        apply ingest_files_blobs_mem
        rw [ingest_one_accepted mb env st g hsize, hsha]
        exact mem_copy_to_blobstore_self _ _
      · exact ih _ ⟨g, hgr, hsha, hsize⟩

lemma ingest_files_artifacts_countP (mb : Nat) (env : IngestEnv) (fp : String) :
    ∀ (fs : List FileInfo) (st : IngestState),
      (((ingest_files mb env st fs).1).artifacts.countP (fun r => r.sha256 == fp))
        = st.artifacts.countP (fun r => r.sha256 == fp)
          + fs.countP (fun f => f.sha == fp && decide (f.size ≤ mb)) := by
  intro fs
  induction fs with
  | nil => intro st; simp [ingest_files]
  | cons f fs ih =>
      intro st
      show (((ingest_files mb env (ingest_one mb env st f).1 fs).1).artifacts.countP _) = _
      rw [ih, List.countP_cons]
      by_cases hs : f.size > mb
      · have h2 : (f.sha == fp && decide (f.size ≤ mb)) = false := by
          have hle : ¬ (f.size ≤ mb) := by omega
          simp [hle]
        rw [ingest_one_rejected mb env st f hs, h2]
        simp
      · have hle : f.size ≤ mb := by omega
        have h3 : (f.sha == fp && decide (f.size ≤ mb)) = (f.sha == fp) := by simp [hle]
        rw [ingest_one_accepted mb env st f hs, h3]
        simp only [List.countP_append, List.countP_cons, List.countP_nil]
        by_cases h4 : f.sha = fp <;> simp [h4] <;> omega

lemma ingest_files_deleted (mb : Nat) (env : IngestEnv) :
    ∀ (fs : List FileInfo) (st : IngestState),
      ((ingest_files mb env st fs).1).deleted
        = st.deleted ++ (fs.filter (fun g => decide (g.size ≤ mb))).map FileInfo.name := by
  intro fs
  induction fs with
  | nil => intro st; simp [ingest_files]
  | cons f fs ih =>
      intro st
      show ((ingest_files mb env (ingest_one mb env st f).1 fs).1).deleted = _
      rw [ih]
      by_cases hs : f.size > mb
      · have hle : ¬ (f.size ≤ mb) := by omega
        rw [ingest_one_rejected mb env st f hs]
        simp [List.filter_cons, hle]
      · have hle : f.size ≤ mb := by omega
        rw [ingest_one_accepted mb env st f hs]
        simp [List.filter_cons, hle]

lemma run_ingest_calls_blobs_nodup (mb : Nat) :
    ∀ (cs : List (IngestEnv × List FileInfo)) (st : IngestState),
      st.blobs.Nodup → (run_ingest_calls mb st cs).blobs.Nodup := by
  intro cs
  induction cs with
  | nil => intro st h; exact h
  | cons c cs ih =>
      intro st h
      exact ih _ (ingest_files_blobs_nodup mb c.1 c.2 st h)

lemma run_ingest_calls_blobs_mem (mb : Nat) (fp : String) :
    ∀ (cs : List (IngestEnv × List FileInfo)) (st : IngestState),
      fp ∈ st.blobs → fp ∈ (run_ingest_calls mb st cs).blobs := by
  intro cs
  induction cs with
  | nil => intro st h; exact h
  | cons c cs ih =>
      intro st h
      exact ih _ (ingest_files_blobs_mem mb c.1 c.2 st fp h)

lemma run_ingest_calls_countP (mb : Nat) (fp : String) :
    ∀ (cs : List (IngestEnv × List FileInfo)) (st : IngestState),
      ((run_ingest_calls mb st cs).artifacts.countP (fun r => r.sha256 == fp))
        = st.artifacts.countP (fun r => r.sha256 == fp)
          + (cs.map (fun c =>
              c.2.countP (fun f => f.sha == fp && decide (f.size ≤ mb)))).sum := by
  intro cs
  induction cs with
  | nil => intro st; simp [run_ingest_calls]
  | cons c cs ih =>
      intro st
      show ((run_ingest_calls mb (ingest_files mb c.1 st c.2).1 cs).artifacts.countP _) = _
      rw [ih, ingest_files_artifacts_countP]
      simp [List.sum_cons]
      omega

lemma sum_map_all_one {α : Type} :
    ∀ (l : List α) (g : α → Nat), (∀ a ∈ l, g a = 1) → (l.map g).sum = l.length := by
  intro l
  induction l with
  | nil => intro g _; simp
  | cons a l ih =>
      intro g h
      simp [List.sum_cons, h a (by simp), ih g (fun b hb => h b (by simp [hb]))]
      omega

/- ===== C7 ===== -/

/-- Claim C7: over any sequence of ingest calls, each including exactly one
within-cap file carrying fingerprint `fp` (identical bytes have identical
fingerprints, since `file_sha256` is a function of the bytes), and starting
from a store whose blob files are distinct (a filesystem property) with no
prior rows for `fp`: afterwards exactly one blob file for `fp` exists on
disk, and the number of artifact rows recording `fp` equals the number of
calls. -/
theorem ingest_dedup_one_blob_row_per_call (MAX_ARTIFACT_SIZE_MB : Nat) (fp : String)
    (st : IngestState) (calls : List (IngestEnv × List FileInfo))
    (hnodup : st.blobs.Nodup)
    (hrows0 : st.artifacts.countP (fun r => r.sha256 == fp) = 0)
    (hne : calls ≠ [])
    (hcalls : ∀ c ∈ calls, c.2.countP
        (fun f => f.sha == fp
          && decide (f.size ≤ get_max_artifact_size MAX_ARTIFACT_SIZE_MB)) = 1) :
    (run_ingest_calls (get_max_artifact_size MAX_ARTIFACT_SIZE_MB) st calls).blobs.count fp = 1
    ∧ (run_ingest_calls (get_max_artifact_size MAX_ARTIFACT_SIZE_MB) st calls).artifacts.countP
        (fun r => r.sha256 == fp) = calls.length := by
  constructor
  · obtain ⟨c, cs, rfl⟩ : ∃ c cs, calls = c :: cs := by
      cases calls with
      | nil => exact absurd rfl hne
      | cons c cs => exact ⟨c, cs, rfl⟩
    have h1 := hcalls c (by simp)
    have hpos : 0 < c.2.countP
        (fun f => f.sha == fp
          && decide (f.size ≤ get_max_artifact_size MAX_ARTIFACT_SIZE_MB)) := by
      rw [h1]; omega
    rw [List.countP_pos_iff] at hpos
    obtain ⟨f, hf, hpf⟩ := hpos
    have hsha : f.sha = fp ∧ f.size ≤ get_max_artifact_size MAX_ARTIFACT_SIZE_MB := by
      simpa using hpf
    have hmem1 : fp ∈ ((ingest_files (get_max_artifact_size MAX_ARTIFACT_SIZE_MB)
        c.1 st c.2).1).blobs :=
      ingest_files_blobs_gains _ c.1 fp c.2 st ⟨f, hf, hsha.1, by omega⟩
    have hmemfinal : fp ∈ (run_ingest_calls (get_max_artifact_size MAX_ARTIFACT_SIZE_MB)
        st (c :: cs)).blobs :=
      run_ingest_calls_blobs_mem _ fp cs _ hmem1
    have hnodupfinal : (run_ingest_calls (get_max_artifact_size MAX_ARTIFACT_SIZE_MB)
        st (c :: cs)).blobs.Nodup :=
      run_ingest_calls_blobs_nodup _ cs _
        (ingest_files_blobs_nodup _ c.1 c.2 st hnodup)
    exact List.count_eq_one_of_mem hnodupfinal hmemfinal
  · rw [run_ingest_calls_countP, hrows0, sum_map_all_one _ _ hcalls]
    omega

/-- Witness for C7: two ingest calls from two sessions, each with one small
file of the same bytes (fingerprint "ab"); afterwards one blob and two
rows. -/
theorem ingest_dedup_one_blob_row_per_call_witness :
    ((IngestState.mk [] [] 0 []).blobs.Nodup
    ∧ (IngestState.mk [] [] 0 []).artifacts.countP (fun r => r.sha256 == "ab") = 0
    ∧ ([(IngestEnv.mk "t1" "s1" none none, [FileInfo.mk "f1" 3 "ab" "text/plain"]),
        (IngestEnv.mk "t1" "s2" none none, [FileInfo.mk "f2" 3 "ab" "text/plain"])]
        : List (IngestEnv × List FileInfo)) ≠ []
    ∧ (∀ c ∈ ([(IngestEnv.mk "t1" "s1" none none, [FileInfo.mk "f1" 3 "ab" "text/plain"]),
        (IngestEnv.mk "t1" "s2" none none, [FileInfo.mk "f2" 3 "ab" "text/plain"])]
        : List (IngestEnv × List FileInfo)), c.2.countP
        (fun f => f.sha == "ab" && decide (f.size ≤ get_max_artifact_size 1)) = 1))
    ∧ ((run_ingest_calls (get_max_artifact_size 1) (IngestState.mk [] [] 0 [])
        [(IngestEnv.mk "t1" "s1" none none, [FileInfo.mk "f1" 3 "ab" "text/plain"]),
         (IngestEnv.mk "t1" "s2" none none, [FileInfo.mk "f2" 3 "ab" "text/plain"])]).blobs.count "ab" = 1
    ∧ (run_ingest_calls (get_max_artifact_size 1) (IngestState.mk [] [] 0 [])
        [(IngestEnv.mk "t1" "s1" none none, [FileInfo.mk "f1" 3 "ab" "text/plain"]),
         (IngestEnv.mk "t1" "s2" none none, [FileInfo.mk "f2" 3 "ab" "text/plain"])]).artifacts.countP
        (fun r => r.sha256 == "ab")
      = ([(IngestEnv.mk "t1" "s1" none none, [FileInfo.mk "f1" 3 "ab" "text/plain"]),
          (IngestEnv.mk "t1" "s2" none none, [FileInfo.mk "f2" 3 "ab" "text/plain"])]
          : List (IngestEnv × List FileInfo)).length) :=
  ⟨⟨by decide, by decide, by decide, by decide⟩,
    ingest_dedup_one_blob_row_per_call 1 "ab" (IngestState.mk [] [] 0 [])
      [(IngestEnv.mk "t1" "s1" none none, [FileInfo.mk "f1" 3 "ab" "text/plain"]),
       (IngestEnv.mk "t1" "s2" none none, [FileInfo.mk "f2" 3 "ab" "text/plain"])]
      (by decide) (by decide) (by decide) (by decide)⟩

/- ===== C8 ===== -/

/-- Claim C8: a file of exactly `MAX_ARTIFACT_SIZE_MB * 1 MiB` bytes is
accepted — no error, fingerprint recorded in the descriptor, blob present,
and a new artifact row appended — while a file one byte larger is rejected:
the state is untouched and the descriptor carries an error and a null id. -/
theorem max_artifact_size_boundary (MAX_ARTIFACT_SIZE_MB : Nat) (env : IngestEnv)
    (st : IngestState) (name sha mime : String) :
    ((ingest_one (get_max_artifact_size MAX_ARTIFACT_SIZE_MB) env st
        (FileInfo.mk name (get_max_artifact_size MAX_ARTIFACT_SIZE_MB) sha mime)).2.error = none
    ∧ (ingest_one (get_max_artifact_size MAX_ARTIFACT_SIZE_MB) env st
        (FileInfo.mk name (get_max_artifact_size MAX_ARTIFACT_SIZE_MB) sha mime)).2.sha256 = some sha
    ∧ sha ∈ (ingest_one (get_max_artifact_size MAX_ARTIFACT_SIZE_MB) env st
        (FileInfo.mk name (get_max_artifact_size MAX_ARTIFACT_SIZE_MB) sha mime)).1.blobs
    ∧ (ingest_one (get_max_artifact_size MAX_ARTIFACT_SIZE_MB) env st
        (FileInfo.mk name (get_max_artifact_size MAX_ARTIFACT_SIZE_MB) sha mime)).1.artifacts
      = st.artifacts ++ [ArtifactRow.mk (toString st.next_id) env.thread_id sha name mime
          (get_max_artifact_size MAX_ARTIFACT_SIZE_MB) (some env.session_id) env.run_id
          env.tool_call_id])
    ∧ ((ingest_one (get_max_artifact_size MAX_ARTIFACT_SIZE_MB) env st
        (FileInfo.mk name (get_max_artifact_size MAX_ARTIFACT_SIZE_MB + 1) sha mime)).1 = st
    ∧ (ingest_one (get_max_artifact_size MAX_ARTIFACT_SIZE_MB) env st
        (FileInfo.mk name (get_max_artifact_size MAX_ARTIFACT_SIZE_MB + 1) sha mime)).2.id = none
    ∧ (ingest_one (get_max_artifact_size MAX_ARTIFACT_SIZE_MB) env st
        (FileInfo.mk name (get_max_artifact_size MAX_ARTIFACT_SIZE_MB + 1) sha mime)).2.error.isSome
      = true) := by
  have hacc : ¬ ((FileInfo.mk name (get_max_artifact_size MAX_ARTIFACT_SIZE_MB) sha mime).size
      > get_max_artifact_size MAX_ARTIFACT_SIZE_MB) := by
    simp
  have hrej : (FileInfo.mk name (get_max_artifact_size MAX_ARTIFACT_SIZE_MB + 1) sha mime).size
      > get_max_artifact_size MAX_ARTIFACT_SIZE_MB := by
    simp
  refine ⟨⟨?_, ?_, ?_, ?_⟩, ?_, ?_, ?_⟩
  · simp [ingest_one, hacc, upsert_artifact, create_artifact]
  · simp [ingest_one, hacc, upsert_artifact, create_artifact]
  · rw [ingest_one_accepted _ env st _ hacc]
    exact mem_copy_to_blobstore_self _ _
  · rw [ingest_one_accepted _ env st _ hacc]
  · exact ingest_one_rejected _ env st _ hrej
  · simp [ingest_one, hrej]
  · simp [ingest_one, hrej]

/- ===== C10 ===== -/

/-- Claim C10: a file rejected for exceeding the size cap gets a descriptor
with null id and null sha256 and leaves the world untouched (no blob copy,
no artifact row, nothing deleted from staging — the rejected file stays in
place); across any ingest call, the files deleted from the staging directory
are exactly the accepted (within-cap) ones, in order. -/
theorem oversize_file_rejected_without_effect (MAX_ARTIFACT_SIZE_MB k : Nat)
    (env : IngestEnv) (st : IngestState) (name sha mime : String)
    (files : List FileInfo) :
    ((ingest_one (get_max_artifact_size MAX_ARTIFACT_SIZE_MB) env st
        (FileInfo.mk name (get_max_artifact_size MAX_ARTIFACT_SIZE_MB + (k + 1)) sha mime)).1 = st
    ∧ (ingest_one (get_max_artifact_size MAX_ARTIFACT_SIZE_MB) env st
        (FileInfo.mk name (get_max_artifact_size MAX_ARTIFACT_SIZE_MB + (k + 1)) sha mime)).2.id
      = none
    ∧ (ingest_one (get_max_artifact_size MAX_ARTIFACT_SIZE_MB) env st
        (FileInfo.mk name (get_max_artifact_size MAX_ARTIFACT_SIZE_MB + (k + 1)) sha mime)).2.sha256
      = none)
    ∧ (ingest_files (get_max_artifact_size MAX_ARTIFACT_SIZE_MB) env st files).1.deleted
        = st.deleted ++ (files.filter
            (fun g => decide (g.size ≤ get_max_artifact_size MAX_ARTIFACT_SIZE_MB))).map
            FileInfo.name := by
  have hrej : (FileInfo.mk name (get_max_artifact_size MAX_ARTIFACT_SIZE_MB + (k + 1)) sha
      mime).size > get_max_artifact_size MAX_ARTIFACT_SIZE_MB := by
    simp
  refine ⟨⟨?_, ?_, ?_⟩, ?_⟩
  · exact ingest_one_rejected _ env st _ hrej
  · simp [ingest_one, hrej]
  · simp [ingest_one, hrej]
  · exact ingest_files_deleted _ env files st

/- ===== Download endpoint (src/backend/artifacts/api.py) ===== -/

/-- Hex digits as accepted in a uuid string. -/
def isHexChar (c : Char) : Bool :=
  c.isDigit || (('a' ≤ c) && (c ≤ 'f')) || (('A' ≤ c) && (c ≤ 'F'))

/-- Positions 8, 13, 18 and 23 of a canonical uuid string hold hyphens, all
other positions hold hex digits. -/
def uuidFormatAux : Nat → List Char → Bool
  | _, [] => true
  | i, c :: rest =>
      (if i == 8 || i == 13 || i == 18 || i == 23 then c == '-' else isHexChar c)
        && uuidFormatAux (i + 1) rest

/-- Models `uuid.UUID(artifact_id)` (artifacts/api.py 38-41) on the canonical
hyphenated 8-4-4-4-12 hex form — the form of every id the system issues —
canonicalizing letter case; `none` models the ValueError answered with 400.
(The stdlib constructor also accepts braced / urn / unhyphenated spellings;
those are not modelled.) -/
def parse_uuid (s : String) : Option String :=
  if s.data.length == 36 && uuidFormatAux 0 s.data then
    some (String.mk (s.data.map Char.toLower))
  else none

/-- The payload `verify_token` returns (spec §4.2): the artifact id the token
was issued for. -/
structure TokenData where
  artifact_id : String
deriving DecidableEq

/-- storage.py 51-62: `blob_dir / sha256[:2] / sha256[2:4] / sha256`. -/
def blob_path_for_sha (BLOBSTORE_DIR sha256 : String) : String :=
  BLOBSTORE_DIR ++ "/" ++ String.mk (sha256.data.take 2) ++ "/"
    ++ String.mk ((sha256.data.drop 2).take 2) ++ "/" ++ sha256

/-- storage.py 183-190: look the artifact row up by its id. -/
def get_artifact_by_id (db : List ArtifactRow) (artifact_uuid : String) :
    Option ArtifactRow :=
  db.find? (fun r => r.id == artifact_uuid)

/-- artifacts/api.py 54: the MIME types rendered inline. -/
def inline_mimes : List String :=
  ["text/html", "image/png", "image/jpeg", "image/jpg", "image/gif", "image/webp",
   "image/svg+xml"]

/-- What `GET /artifacts/{id}` answers: an HTTPException with a status code,
or a streamed file with a media type and a Content-Disposition header. -/
inductive DownloadResult where
  | httpError (status_code : Nat) (detail : String)
  | fileResponse (path : String) (media_type : String) (content_disposition : String)
deriving DecidableEq

/-- artifacts/api.py 17-67: the download endpoint.  `verify_result` is the
outcome of `verify_token(token)`; the token service (tokens.py) is not under
src/ and is modelled from spec §4.2: it fails on an invalid or expired token
(the RuntimeError message is the `.error` payload) and otherwise yields the
token's artifact id.  `db` is the artifacts table, `disk` the set of paths
existing on the blob filesystem, and a row's null `mime`/`filename` are
modelled as the empty string (both are falsy in the source). -/
def download_artifact (verify_result : Except String TokenData)
    (artifact_id : String) (db : List ArtifactRow)
    (BLOBSTORE_DIR : String) (disk : List String) : DownloadResult :=
  match verify_result with
  | .error e => .httpError 401 e
  | .ok data =>
      if data.artifact_id ≠ artifact_id then
        .httpError 403 "Token does not match artifact"
      else
        match parse_uuid artifact_id with
        | none => .httpError 400 "Invalid artifact ID format"
        | some artifact_uuid =>
            match get_artifact_by_id db artifact_uuid with
            | none => .httpError 404 "Artifact not found"
            | some artifact =>
                if ¬ disk.contains (blob_path_for_sha BLOBSTORE_DIR artifact.sha256) then
                  .httpError 410 "Blob missing (pruned?)"
                else
                  let media_type :=
                    if artifact.mime ≠ "" then artifact.mime else "application/octet-stream"
                  let disposition :=
                    if inline_mimes.contains artifact.mime then "inline"
                    else "attachment; filename=\"" ++
                      (if artifact.filename ≠ "" then artifact.filename else artifact_id) ++ "\""
                  .fileResponse (blob_path_for_sha BLOBSTORE_DIR artifact.sha256)
                    media_type disposition

/- ===== C9 ===== -/

/-- Claim C9: `GET /artifacts/{id}?token=...` answers 401 (a 4xx) when token
verification fails, 403 when the verified token's artifact id differs from
the path's, 404 when the token matches but no row exists for the (valid) id,
410 when the row exists but its blob file is missing on disk, and otherwise
streams the blob path with the record's MIME type. -/
theorem download_artifact_status_dispatch (e : String) (data : TokenData)
    (artifact_id : String) (db : List ArtifactRow)
    (BLOBSTORE_DIR : String) (disk : List String) :
    (download_artifact (Except.error e) artifact_id db BLOBSTORE_DIR disk
        = DownloadResult.httpError 401 e)
    ∧ (data.artifact_id ≠ artifact_id →
        download_artifact (Except.ok data) artifact_id db BLOBSTORE_DIR disk
          = DownloadResult.httpError 403 "Token does not match artifact")
    ∧ (∀ u, data.artifact_id = artifact_id → parse_uuid artifact_id = some u →
        get_artifact_by_id db u = none →
        download_artifact (Except.ok data) artifact_id db BLOBSTORE_DIR disk
          = DownloadResult.httpError 404 "Artifact not found")
    ∧ (∀ u a, data.artifact_id = artifact_id → parse_uuid artifact_id = some u →
        get_artifact_by_id db u = some a →
        disk.contains (blob_path_for_sha BLOBSTORE_DIR a.sha256) = false →
        download_artifact (Except.ok data) artifact_id db BLOBSTORE_DIR disk
          = DownloadResult.httpError 410 "Blob missing (pruned?)")
    ∧ (∀ u a, data.artifact_id = artifact_id → parse_uuid artifact_id = some u →
        get_artifact_by_id db u = some a →
        disk.contains (blob_path_for_sha BLOBSTORE_DIR a.sha256) = true →
        a.mime ≠ "" →
        download_artifact (Except.ok data) artifact_id db BLOBSTORE_DIR disk
          = DownloadResult.fileResponse (blob_path_for_sha BLOBSTORE_DIR a.sha256) a.mime
              (if inline_mimes.contains a.mime then "inline"
               else "attachment; filename=\"" ++
                 (if a.filename ≠ "" then a.filename else artifact_id) ++ "\"")) := by
  refine ⟨rfl, ?_, ?_, ?_, ?_⟩
  · intro h
    simp [download_artifact, h]
  · intro u hmatch hparse hget
    simp [download_artifact, hmatch, hparse, hget]
  · intro u a hmatch hparse hget hdisk
    simp [download_artifact, hmatch, hparse, hget, hdisk]
    simpa using hdisk
  · intro u a hmatch hparse hget hdisk hmime
    simp [download_artifact, hmatch, hparse, hget, hdisk, hmime]
    simpa using hdisk

/-- Witness for C9: each branch at a concrete input — an expired token, a
mismatched token, a matching token with an empty table, a row whose blob is
missing, and a healthy HTML artifact streamed inline with its MIME type. -/
theorem download_artifact_status_dispatch_witness :
    (download_artifact (Except.error "Token expired")
        "00000000-0000-0000-0000-00000000aaaa" [] "blobstore" []
      = DownloadResult.httpError 401 "Token expired")
    ∧ ((TokenData.mk "other").artifact_id ≠ "00000000-0000-0000-0000-00000000aaaa"
      ∧ download_artifact (Except.ok (TokenData.mk "other"))
          "00000000-0000-0000-0000-00000000aaaa" [] "blobstore" []
        = DownloadResult.httpError 403 "Token does not match artifact")
    ∧ ((TokenData.mk "00000000-0000-0000-0000-00000000aaaa").artifact_id
        = "00000000-0000-0000-0000-00000000aaaa"
      ∧ parse_uuid "00000000-0000-0000-0000-00000000aaaa"
        = some "00000000-0000-0000-0000-00000000aaaa"
      ∧ get_artifact_by_id [] "00000000-0000-0000-0000-00000000aaaa" = none
      ∧ download_artifact (Except.ok (TokenData.mk "00000000-0000-0000-0000-00000000aaaa"))
          "00000000-0000-0000-0000-00000000aaaa" [] "blobstore" []
        = DownloadResult.httpError 404 "Artifact not found")
    ∧ ((get_artifact_by_id
          [ArtifactRow.mk "00000000-0000-0000-0000-00000000aaaa" "t1" "ff00" "x.html"
            "text/html" 1 none none none] "00000000-0000-0000-0000-00000000aaaa"
        = some (ArtifactRow.mk "00000000-0000-0000-0000-00000000aaaa" "t1" "ff00" "x.html"
            "text/html" 1 none none none))
      ∧ ([] : List String).contains (blob_path_for_sha "blobstore" "ff00") = false
      ∧ download_artifact (Except.ok (TokenData.mk "00000000-0000-0000-0000-00000000aaaa"))
          "00000000-0000-0000-0000-00000000aaaa"
          [ArtifactRow.mk "00000000-0000-0000-0000-00000000aaaa" "t1" "ff00" "x.html"
            "text/html" 1 none none none] "blobstore" []
        = DownloadResult.httpError 410 "Blob missing (pruned?)")
    ∧ (["blobstore/ff/00/ff00"].contains (blob_path_for_sha "blobstore" "ff00") = true
      ∧ download_artifact (Except.ok (TokenData.mk "00000000-0000-0000-0000-00000000aaaa"))
          "00000000-0000-0000-0000-00000000aaaa"
          [ArtifactRow.mk "00000000-0000-0000-0000-00000000aaaa" "t1" "ff00" "x.html"
            "text/html" 1 none none none] "blobstore" ["blobstore/ff/00/ff00"]
        = DownloadResult.fileResponse (blob_path_for_sha "blobstore" "ff00") "text/html"
            (if inline_mimes.contains
                (ArtifactRow.mk "00000000-0000-0000-0000-00000000aaaa" "t1" "ff00" "x.html"
                  "text/html" 1 none none none).mime then "inline"
             else "attachment; filename=\"" ++
               (if (ArtifactRow.mk "00000000-0000-0000-0000-00000000aaaa" "t1" "ff00" "x.html"
                  "text/html" 1 none none none).filename ≠ ""
                then (ArtifactRow.mk "00000000-0000-0000-0000-00000000aaaa" "t1" "ff00" "x.html"
                  "text/html" 1 none none none).filename
                else "00000000-0000-0000-0000-00000000aaaa") ++ "\"")) :=
  ⟨(download_artifact_status_dispatch "Token expired" (TokenData.mk "other")
      "00000000-0000-0000-0000-00000000aaaa" [] "blobstore" []).1,
   ⟨by decide, (download_artifact_status_dispatch "Token expired" (TokenData.mk "other")
      "00000000-0000-0000-0000-00000000aaaa" [] "blobstore" []).2.1 (by decide)⟩,
   ⟨by decide, by decide, by decide,
    (download_artifact_status_dispatch "Token expired"
      (TokenData.mk "00000000-0000-0000-0000-00000000aaaa")
      "00000000-0000-0000-0000-00000000aaaa" [] "blobstore" []).2.2.1
      "00000000-0000-0000-0000-00000000aaaa" (by decide) (by decide) (by decide)⟩,
   ⟨by decide, by decide,
    (download_artifact_status_dispatch "Token expired"
      (TokenData.mk "00000000-0000-0000-0000-00000000aaaa")
      "00000000-0000-0000-0000-00000000aaaa"
      [ArtifactRow.mk "00000000-0000-0000-0000-00000000aaaa" "t1" "ff00" "x.html"
        "text/html" 1 none none none] "blobstore" []).2.2.2.1
      "00000000-0000-0000-0000-00000000aaaa"
      (ArtifactRow.mk "00000000-0000-0000-0000-00000000aaaa" "t1" "ff00" "x.html"
        "text/html" 1 none none none)
      (by decide) (by decide) (by decide) (by decide)⟩,
   ⟨by decide,
    (download_artifact_status_dispatch "Token expired"
      (TokenData.mk "00000000-0000-0000-0000-00000000aaaa")
      "00000000-0000-0000-0000-00000000aaaa"
      [ArtifactRow.mk "00000000-0000-0000-0000-00000000aaaa" "t1" "ff00" "x.html"
        "text/html" 1 none none none] "blobstore" ["blobstore/ff/00/ff00"]).2.2.2.2
      "00000000-0000-0000-0000-00000000aaaa"
      (ArtifactRow.mk "00000000-0000-0000-0000-00000000aaaa" "t1" "ff00" "x.html"
        "text/html" 1 none none none)
      (by decide) (by decide) (by decide) (by decide) (by decide)⟩⟩

end LG
